import Mathlib

/-
Verification development for the uzbek_payments gateway-integration app.

The Python modules under uzbek_payments/ are shallowly embedded:

* Python floats (payment amounts, clock readings) are modeled as exact
  rationals, or generically as a linearly ordered ring where only ordering
  and subtraction are used.
* frappe form values are `Option String` (`None` = absent field); Python
  truthiness of such values is `truthy`, and f-string interpolation of a
  possibly-`None` value is `pyStr`.
* The Integration Request table is a `List IntegrationRequest`, ordered by
  creation.  frappe's `get_all` text-pattern probe
  `data LIKE '%"order_id": <escaped>%'` is modeled as equality on the
  embedded field of the parsed payload, `order_by="creation desc", limit=1`
  as the last matching element.
* `frappe.throw` inside a `try` block is modeled by returning the branch the
  surrounding `except` handler produces; database transaction rollback is
  not modeled (no claim depends on it).
* External collaborators keep their interface shape: digest functions
  (hashlib.md5, hmac-sha256) and JSON serialization are parameters of the
  functions that call them; `hmac.compare_digest` is functionally string
  equality (its timing behaviour is outside the embedding); the delayed-task
  queue (`frappe.enqueue`) is an event in the function result; the
  `on_payment_authorized` host hand-off and `schedule_retry` invocations are
  accumulated in `handoffs` / `retries` result fields.
-/

/-- Truthiness of an optional string, as Python evaluates `if value:` on a
form field: `None` and the empty string are falsy, any other string truthy. -/
def truthy : Option String → Bool
  | none => false
  | some s => !(s == "")

/-- Interpolation of an optional string into a Python f-string: `None` renders
as the four characters `None`. -/
def pyStr : Option String → String
  | none => "None"
  | some s => s

/-- Model of Python `a or b` on two optional strings: the first operand when
truthy, otherwise the second. -/
def pyOr (a b : Option String) : Option String :=
  if truthy a then a else b

/-- Round-half-to-even of a rational to the nearest integer, the rounding rule
of Python's built-in `round`. -/
def roundHalfEven (q : ℚ) : ℤ :=
  if q - ⌊q⌋ < 1/2 then ⌊q⌋
  else if (1:ℚ)/2 < q - ⌊q⌋ then ⌊q⌋ + 1
  else if Even ⌊q⌋ then ⌊q⌋ else ⌊q⌋ + 1

/-- Model of Python `round(amount, 2)` on an exact rational amount: round
half-to-even at two decimal places. -/
def pyRound2 (q : ℚ) : ℚ := (roundHalfEven (100 * q) : ℚ) / 100

/-- Embedding of `validators.validate_payment_amount`.  Python floats are
modeled as exact rationals and `round(amount, 2)` as `pyRound2`; errors raised
by `frappe.throw` become `Except.error` with the formatted message. -/
def validate_payment_amount (amount : ℚ) : Except String Bool :=
  if amount ≤ 0 then .error "Payment amount must be greater than 0"
  else if amount < 1000 then .error "Payment amount must be at least 1000 UZS"
  else if 100000000 < amount then .error "Payment amount must not exceed 100000000 UZS"
  else if pyRound2 amount ≠ amount then .error "Payment amount must have at most 2 decimal places"
  else .ok true

/-- Characters admitted by the source's order-id pattern `[\w\-_]+`.  The
ASCII reading of `\w` (letters, digits, underscore) plus the hyphen; the
Unicode extension of `\w` is not modeled, no claim depends on it. -/
def isPyWordChar (c : Char) : Bool := c.isAlphanum || c == '_' || c == '-'

/-- Embedding of `validators.validate_order_id`. -/
def validate_order_id (order_id : String) : Except String Bool :=
  if order_id == "" then .error "Order ID is required"
  else if 100 < order_id.length then .error "Order ID must be less than 100 characters"
  else if !(order_id.data.all isPyWordChar) then
    .error "Order ID contains invalid characters. Only alphanumeric characters, hyphens and underscores are allowed."
  else .ok true

/-- Values of a payment-data dictionary: strings, and an opaque non-string
constructor standing for every value `isinstance(value, str)` rejects. -/
inductive PyVal
  | str (s : String)
  | num (n : ℤ)
deriving DecidableEq

/-- Test for the character class `[\x00-\x1f\x7f-\x9f]` removed by
`sanitize_payment_data`. -/
def is_control_char (c : Char) : Bool :=
  c.val ≤ 0x1f || (0x7f ≤ c.val && c.val ≤ 0x9f)

/-- Model of the `re.sub` step of `sanitize_payment_data`: drop every control
character. -/
def remove_control_chars (s : String) : String :=
  String.mk (s.data.filter (fun c => !is_control_char c))

/-- Model of the length-limiting step of `sanitize_payment_data`: keep the
first 1000 characters when the value is longer. -/
def truncate1000 (s : String) : String :=
  if 1000 < s.length then String.mk (s.data.take 1000) else s

/-- Per-value action of `sanitize_payment_data`: strings are cleaned and
truncated, every other value passes through unchanged. -/
def sanitize_value : PyVal → PyVal
  | .str s => .str (truncate1000 (remove_control_chars s))
  | v => v

/-- Embedding of `validators.sanitize_payment_data`.  A Python dict is an
association list with pairwise-distinct keys, preserved in iteration order. -/
def sanitize_payment_data (data : List (String × PyVal)) : List (String × PyVal) :=
  data.map (fun kv => (kv.1, sanitize_value kv.2))

/-- Constant `WebhookRetry.MAX_RETRIES`. -/
def WebhookRetry.MAX_RETRIES : Nat := 3

/-- Constant `WebhookRetry.RETRY_DELAYS` (1 min, 5 min, 15 min). -/
def WebhookRetry.RETRY_DELAYS : List Nat := [60, 300, 900]

/-- Observable outcome of one `WebhookRetry.schedule_retry` call: either a
logged drop, or one `frappe.enqueue` of `process_webhook_retry` with a delay
and the retry counter the enqueued task will carry. -/
inductive RetryAction
  | droppedLogged (msg : String)
  | enqueued (integration_request_name : String) (delay : Nat) (retry_count : Nat)
deriving DecidableEq

/-- Embedding of `WebhookRetry.schedule_retry`. -/
def WebhookRetry.schedule_retry (integration_request_name : String) (retry_count : Nat) :
    RetryAction :=
  if WebhookRetry.MAX_RETRIES ≤ retry_count then
    .droppedLogged ("Webhook retry limit exceeded for " ++ integration_request_name)
  else
    .enqueued integration_request_name
      (if retry_count < WebhookRetry.RETRY_DELAYS.length then
        WebhookRetry.RETRY_DELAYS.getD retry_count 900
      else 900)
      (retry_count + 1)

/-- Enqueue events of a `RetryAction`: empty for a drop, one task otherwise. -/
def enqueuesOf : RetryAction → List (String × Nat × Nat)
  | .droppedLogged _ => []
  | .enqueued nm d k => [(nm, d, k)]

/-- Enqueue events produced when a pending retry task carrying `retry_count`
is delivered by `WebhookRetry.process_webhook_retry` and reconciliation fails
again: the gateway callback's failure branch first calls
`schedule_retry(name, 0)` (the literal 0 of
click_settings.py / payme_settings.py / freedompay_settings.py), then
`process_webhook_retry`'s failure check calls
`schedule_retry(name, retry_count)`. -/
def process_webhook_retry_fail_enqueues (integration_request_name : String)
    (retry_count : Nat) : List (String × Nat × Nat) :=
  enqueuesOf (WebhookRetry.schedule_retry integration_request_name 0) ++
    enqueuesOf (WebhookRetry.schedule_retry integration_request_name retry_count)

/-- Embedding of `lock_utils.payment_lock`.  The cache of lock keys is the
list `locks`; `frappe.cache().set(key, ..., nx=True)` fails exactly when the
key is present; the critical section `body` transforms an arbitrary state and
either returns or raises (`Except.error`); the `finally` clause deletes the
key on both exits.  The lease expiry (`ex=timeout`) is real-time behaviour
outside the embedding. -/
def payment_lock {σ α : Type} (order_id : String) (locks : List String) (st : σ)
    (body : σ → Except String α × σ) : Except String α × σ × List String :=
  let key := "payment_lock_" ++ order_id
  if key ∈ locks then
    (.error "Payment is already being processed. Please wait.", st, locks)
  else
    let acquired := key :: locks
    let r := body st
    (r.1, r.2, acquired.erase key)

/-- Embedding of `CallbackRateLimiter.check_rate_limit` for one source
identifier: the per-key timestamp list of `self.calls[ip_address]` before and
after the call.  Timestamps are generic over a linearly ordered ring since the
source uses only subtraction and comparison on `time.time()` values. -/
def CallbackRateLimiter.check_rate_limit {T : Type} [LinearOrderedRing T]
    (max_calls : Nat) (period : T) (now : T) (calls : List T) : Bool × List T :=
  let kept := calls.filter (fun t => decide (now - t < period))
  if max_calls ≤ kept.length then (false, kept) else (true, kept ++ [now])

/-- The module-level `callback_rate_limiter` instance: default limits
`max_calls = 10`, `period = 60` seconds. -/
def callback_rate_limiter_check {T : Type} [LinearOrderedRing T]
    (now : T) (calls : List T) : Bool × List T :=
  CallbackRateLimiter.check_rate_limit 10 60 now calls

/-- Timestamps admitted by the `callback_rate_limiter` along a sequence of
calls hitting one source identifier, starting from store `calls`. -/
def rl_admitted {T : Type} [LinearOrderedRing T] : List T → List T → List T
  | [], _ => []
  | t :: ts, calls =>
    let r := callback_rate_limiter_check t calls
    (if r.1 then [t] else []) ++ rl_admitted ts r.2

/-- Number of elements of `l` inside the sliding window `(a, a + 60]`. -/
def window_count {T : Type} [LinearOrderedRing T] (a : T) (l : List T) : Nat :=
  (l.filter (fun t => decide (a < t) && decide (t ≤ a + 60))).length

/-- Status column of an Integration Request. -/
inductive IRStatus
  | Queued
  | Completed
  | Failed
  | Cancelled
deriving DecidableEq

/-- Parsed `data` payload of an Integration Request: the fields this app
reads or merges.  Absent JSON keys are `none`. -/
structure IRData where
  order_id : Option String
  payment_url : Option String
  idempotency_key : Option String
  click_trans_id : Option String
  action : Option String
  error : Option String
  error_note : Option String
  payme_payment_id : Option String
  status : Option String
  freedompay_transaction_id : Option String
  amount : Option String
deriving DecidableEq

/-- Payload with every field absent. -/
def emptyIRData : IRData :=
  ⟨none, none, none, none, none, none, none, none, none, none, none⟩

/-- One row of the Integration Request table (the PaymentRequest record of
the spec). -/
structure IntegrationRequest where
  name : String
  service : String
  status : IRStatus
  data : IRData
  error : Option String
  reference_doctype : Option String
  reference_docname : Option String
deriving DecidableEq

/-- Model of saving a document: replace the row with matching name. -/
def update_request (db : List IntegrationRequest) (nm : String)
    (ir : IntegrationRequest) : List IntegrationRequest :=
  db.map (fun r => if r.name == nm then ir else r)

/-- Model of the callbacks' `frappe.get_all` probe on the serialized payload
(`integration_request_service` = `service`, `data LIKE '%"<field>": <v>%'`,
`order_by="creation desc", limit=1`): the most recently created row whose
embedded field equals the probe value; an untruthy probe is never queried. -/
def find_request_by (db : List IntegrationRequest) (service : String)
    (field : IRData → Option String) (v : Option String) : Option IntegrationRequest :=
  if truthy v then
    (db.filter (fun r => r.service == service && field r.data == v)).getLast?
  else none

/-- Summary dict returned by `PaymentIdempotency.check_existing_payment`. -/
structure ExistingPayment where
  payment_url : Option String
  status : IRStatus
  integration_request : String
deriving DecidableEq

/-- Embedding of `PaymentIdempotency.check_existing_payment`: first stored
record for the gateway whose payload carries the order id and whose status is
Queued or Completed (the source's `get_all` has `limit=1` and no explicit
ordering). -/
def PaymentIdempotency.check_existing_payment (gateway : String)
    (order_id : Option String) (db : List IntegrationRequest) : Option ExistingPayment :=
  if !truthy order_id then none
  else
    match db.find? (fun r =>
        r.service == gateway && r.data.order_id == order_id &&
        (r.status == IRStatus.Queued || r.status == IRStatus.Completed)) with
    | none => none
    | some r => some ⟨r.data.payment_url, r.status, r.name⟩

/-- Embedding of `PaymentIdempotency.generate_idempotency_key`; the
second-resolution timestamp string is a parameter. -/
def PaymentIdempotency.generate_idempotency_key (gateway order_id ts : String) : String :=
  gateway ++ "_" ++ order_id ++ "_" ++ ts

/-- Response body of Click's checkout-creation endpoint, at the shape
`get_payment_url` and `validate_click_response` inspect.  A field is `some`
exactly when the JSON key is present; `none` for the whole response models an
empty / falsy body. -/
structure ClickApiResponse where
  click_trans_id : Option String
  payment_url : Option String
  redirect_url : Option String
deriving DecidableEq

/-- Checkout-creation keyword arguments that `get_payment_url` reads. -/
structure PaymentKwargs where
  order_id : Option String
  amount : ℚ
  reference_doctype : Option String
  reference_docname : Option String
  redirect_to : Option String
deriving DecidableEq

/-- Result of a `get_payment_url` call: the returned checkout URL (possibly
`None`, since the source returns `payment_url or redirect_url` unguarded) or
the message of the raised error. -/
inductive UrlOutcome
  | ok (url : Option String)
  | err (msg : String)
deriving DecidableEq

/-- Embedding of `ClickSettings.get_payment_url`.  The remote
`create_payment_request` response is the parameter `resp`; `ts` is the
second-resolution timestamp used for the idempotency key; record autonaming
is modeled by the current table length.  Every `frappe.throw` unwinds to the
outer handler, which rethrows with the `Could not generate` prefix;
transaction rollback of the half-created record on that path is not modeled
(no claim exercises it). -/
def ClickSettings.get_payment_url (resp : Option ClickApiResponse) (ts : String)
    (kwargs : PaymentKwargs) (db : List IntegrationRequest) :
    UrlOutcome × List IntegrationRequest :=
  if !truthy kwargs.order_id || kwargs.amount == 0 then
    (.err "Could not generate Click payment URL: Missing order ID or amount", db)
  else
    let oid := pyStr kwargs.order_id
    match validate_order_id oid with
    | .error e => (.err ("Could not generate Click payment URL: " ++ e), db)
    | .ok _ =>
      match validate_payment_amount kwargs.amount with
      | .error e => (.err ("Could not generate Click payment URL: " ++ e), db)
      | .ok _ =>
        let existing := PaymentIdempotency.check_existing_payment "Click" kwargs.order_id db
        if truthy ((existing.map (fun ex => ex.payment_url)).getD none) then
          (.ok ((existing.map (fun ex => ex.payment_url)).getD none), db)
        else
          let ir0 : IntegrationRequest :=
            { name := "IR-" ++ toString db.length
              service := "Click"
              status := IRStatus.Queued
              data := { emptyIRData with order_id := kwargs.order_id }
              error := none
              reference_doctype := kwargs.reference_doctype
              reference_docname := kwargs.reference_docname }
          let db1 := db ++ [ir0]
          match resp with
          | none => (.err "Could not generate Click payment URL: Empty response from Click API", db1)
          | some r =>
            if r.click_trans_id.isNone then
              (.err "Could not generate Click payment URL: Missing click_trans_id in Click response", db1)
            else if r.payment_url.isNone && r.redirect_url.isNone then
              (.err "Could not generate Click payment URL: Missing payment URL in Click response", db1)
            else if truthy r.click_trans_id then
              let url := pyOr r.payment_url r.redirect_url
              let key := PaymentIdempotency.generate_idempotency_key "Click" oid ts
              let ir1 := { ir0 with data :=
                { ir0.data with click_trans_id := r.click_trans_id,
                                payment_url := url,
                                idempotency_key := some key } }
              (.ok url, update_request db1 ir0.name ir1)
            else
              (.err "Could not generate Click payment URL: Failed to create Click payment request", db1)

/-- Callback form fields read by the Click callback and its signature check. -/
structure ClickCallbackData where
  merchant_id : Option String
  service_id : Option String
  click_trans_id : Option String
  merchant_trans_id : Option String
  amount : Option String
  action : Option String
  error : Option String
  error_note : Option String
  sign_time : Option String
  sign_string : Option String
deriving DecidableEq

/-- Concatenation `ClickSettings.verify_signature` hashes before the optional
error suffix. -/
def clickSignBase (secret_key : String) (d : ClickCallbackData) : String :=
  pyStr d.click_trans_id ++ pyStr d.service_id ++ secret_key ++
    pyStr d.merchant_trans_id ++ pyStr d.amount ++ pyStr d.action ++ pyStr d.sign_time

/-- Embedding of `ClickSettings.verify_signature`.  `md5hex` is
`hashlib.md5(...).hexdigest()`; `hmac.compare_digest` is string equality (its
constant-time execution is a timing property outside the embedding); a missing
`sign_string` makes `compare_digest(str, None)` raise `TypeError`. -/
def ClickSettings.verify_signature (md5hex : String → String) (secret_key : String)
    (d : ClickCallbackData) : Except String Bool :=
  let signStr :=
    if truthy d.error then clickSignBase secret_key d ++ pyStr d.error
    else clickSignBase secret_key d
  match d.sign_string with
  | none => .error "TypeError: unsupported operand type for compare_digest"
  | some s => .ok (md5hex signStr == s)

/-- Click's success classification: `action == "0" and not error`. -/
def click_is_success (action error : Option String) : Bool :=
  action == some "0" && !truthy error

/-- Lock key computed by the Click callback.  Python's conditional expression
binds looser than `or`, so the whole chain is guarded by `click_trans_id`
being truthy. -/
def click_lock_key (d : ClickCallbackData) : String :=
  if truthy d.click_trans_id then
    (if truthy d.merchant_trans_id then pyStr d.merchant_trans_id else pyStr d.click_trans_id)
  else "unknown"

/-- Record lookup of the Click callback: by embedded `order_id` =
`merchant_trans_id` first, by embedded `click_trans_id` second. -/
def click_find_request (d : ClickCallbackData) (db : List IntegrationRequest) :
    Option IntegrationRequest :=
  match find_request_by db "Click" (fun x => x.order_id) d.merchant_trans_id with
  | some r => some r
  | none => find_request_by db "Click" (fun x => x.click_trans_id) d.click_trans_id

/-- The `on_payment_authorized` invocations a callback issues for a record:
one call per success delivery when both reference fields are truthy. -/
def handoff_calls (ir : IntegrationRequest) : List (String × String) :=
  if truthy ir.reference_doctype && truthy ir.reference_docname then
    [(pyStr ir.reference_doctype, pyStr ir.reference_docname)]
  else []

/-- Acknowledgment envelope of the Click callback.  `success` is
`error 0 / error_note Success`; `failed` is the classified-failure envelope
carrying `error or -1` and `error_note or "Payment failed"`; `caught` is the
outer exception handler's `error -1` envelope with the exception text;
`rateLimited` is the `frappe.throw` raised before the `try` block. -/
inductive ClickCbResult
  | rateLimited (msg : String)
  | success
  | failed (error : Option String) (error_note : Option String)
  | caught (msg : String)
deriving DecidableEq

/-- Full observable outcome of one Click callback delivery. -/
structure ClickCbOutput where
  result : ClickCbResult
  db : List IntegrationRequest
  handoffs : List (String × String)
  retries : List (String × Nat)
deriving DecidableEq

/-- Embedding of the module-level Click `callback`.  `rateOk` is the value of
`callback_rate_limiter.check_rate_limit(ip)`; `locks` is the lock-key cache;
`retries` records the `(name, retry_count)` arguments of each
`WebhookRetry.schedule_retry` call the delivery makes.  On the auth-failure
and not-found paths the outer handler finds no `integration_request` in
scope, so no retry is scheduled there. -/
def click_callback (md5hex : String → String) (secret_key : String) (rateOk : Bool)
    (locks : List String) (d : ClickCallbackData) (db : List IntegrationRequest) :
    ClickCbOutput :=
  if !rateOk then
    ⟨.rateLimited "Rate limit exceeded. Please try again later.", db, [], []⟩
  else
    match ClickSettings.verify_signature md5hex secret_key d with
    | .error e => ⟨.caught e, db, [], []⟩
    | .ok false => ⟨.caught "Invalid signature", db, [], []⟩
    | .ok true =>
      if ("payment_lock_" ++ click_lock_key d) ∈ locks then
        ⟨.caught "Payment is already being processed. Please wait.", db, [], []⟩
      else
        match click_find_request d db with
        | none => ⟨.caught "Integration Request not found", db, [], []⟩
        | some ir =>
          let data' := { ir.data with click_trans_id := d.click_trans_id, action := d.action,
                                      error := d.error, error_note := d.error_note }
          if click_is_success d.action d.error then
            ⟨.success,
              update_request db ir.name { ir with data := data', status := IRStatus.Completed },
              handoff_calls ir, []⟩
          else
            ⟨.failed d.error d.error_note,
              update_request db ir.name
                { ir with data := data', status := IRStatus.Failed,
                          error := some (if truthy d.error_note then pyStr d.error_note
                                         else "Payment failed: " ++ pyStr d.error) },
              [], [(ir.name, 0)]⟩

/-- Callback fields read by the Payme callback: `id`, `account.order_id`
(`none` when the account object or the key is absent) and `status`. -/
structure PaymePayload where
  id : Option String
  order_id : Option String
  status : Option String
deriving DecidableEq

/-- Embedding of `PaymeSettings.verify_signature`: HMAC-SHA256 (parameter
`hmacSha256`, key first) over `json.dumps(data, sort_keys=True)` (parameter
`dump`), compared with `hmac.compare_digest` = string equality. -/
def PaymeSettings.verify_signature (hmacSha256 : String → String → String)
    (merchant_key : String) (dump : PaymePayload → String) (d : PaymePayload)
    (signature : String) : Bool :=
  hmacSha256 merchant_key (dump d) == signature

/-- Payme's success classification: `status == "paid" or status == "completed"`. -/
def payme_is_success (status : Option String) : Bool :=
  status == some "paid" || status == some "completed"

/-- Lock key computed by the Payme callback (conditional expression guarded by
`payment_id` truthiness, as in the Click callback). -/
def payme_lock_key (d : PaymePayload) : String :=
  if truthy d.id then
    (if truthy d.order_id then pyStr d.order_id else pyStr d.id)
  else "unknown"

/-- Record lookup of the Payme callback: by embedded `order_id` first, by
embedded `payme_payment_id` second. -/
def payme_find_request (d : PaymePayload) (db : List IntegrationRequest) :
    Option IntegrationRequest :=
  match find_request_by db "Payme" (fun x => x.order_id) d.order_id with
  | some r => some r
  | none => find_request_by db "Payme" (fun x => x.payme_payment_id) d.id

/-- Acknowledgment envelope of the Payme callback: `success` is
`result.status = "success"`, `failed` carries the
`result.status = "failed"` message, `caught` the outer handler's
`result.status = "error"` message. -/
inductive PaymeCbResult
  | rateLimited (msg : String)
  | success
  | failed (msg : String)
  | caught (msg : String)
deriving DecidableEq

/-- Full observable outcome of one Payme callback delivery. -/
structure PaymeCbOutput where
  result : PaymeCbResult
  db : List IntegrationRequest
  handoffs : List (String × String)
  retries : List (String × Nat)
deriving DecidableEq

/-- Embedding of the module-level Payme `callback`.  `signature` is the
resolved `X-Payme-Signature or Authorization` header; the rate-limit
decorator runs before the body. -/
def payme_callback (hmacSha256 : String → String → String) (merchant_key : String)
    (dump : PaymePayload → String) (rateOk : Bool) (locks : List String)
    (signature : Option String) (d : PaymePayload) (db : List IntegrationRequest) :
    PaymeCbOutput :=
  if !rateOk then
    ⟨.rateLimited "Rate limit exceeded. Please try again later.", db, [], []⟩
  else if !truthy signature then
    ⟨.caught "Missing signature in callback", db, [], []⟩
  else if !PaymeSettings.verify_signature hmacSha256 merchant_key dump d (pyStr signature) then
    ⟨.caught "Invalid signature", db, [], []⟩
  else if ("payment_lock_" ++ payme_lock_key d) ∈ locks then
    ⟨.caught "Payment is already being processed. Please wait.", db, [], []⟩
  else
    match payme_find_request d db with
    | none => ⟨.caught "Integration Request not found", db, [], []⟩
    | some ir =>
      let data' := { ir.data with payme_payment_id := d.id, status := d.status }
      if payme_is_success d.status then
        ⟨.success,
          update_request db ir.name { ir with data := data', status := IRStatus.Completed },
          handoff_calls ir, []⟩
      else
        ⟨.failed ("Payment " ++ pyStr d.status),
          update_request db ir.name
            { ir with data := data', status := IRStatus.Failed,
                      error := some ("Payment status: " ++ pyStr d.status) },
          [], [(ir.name, 0)]⟩

/-- Callback fields read by the FreedomPay callback and its signature check. -/
structure FreedomPayPayload where
  merchant_id : Option String
  terminal_id : Option String
  transaction_id : Option String
  order_id : Option String
  amount : Option String
  status : Option String
deriving DecidableEq

/-- Embedding of `FreedomPaySettings.verify_signature`: HMAC-SHA256 keyed by
the secret over the fixed field concatenation ending in the secret itself. -/
def FreedomPaySettings.verify_signature (hmacSha256 : String → String → String)
    (secret_key : String) (d : FreedomPayPayload) (signature : String) : Bool :=
  hmacSha256 secret_key
    (pyStr d.merchant_id ++ pyStr d.terminal_id ++ pyStr d.transaction_id ++
      pyStr d.order_id ++ pyStr d.amount ++ pyStr d.status ++ secret_key) == signature

/-- FreedomPay's success classification:
`status in ("success", "completed", "paid", "1")`. -/
def freedompay_is_success (status : Option String) : Bool :=
  status == some "success" || status == some "completed" ||
    status == some "paid" || status == some "1"

/-- Lock key computed by the FreedomPay callback (guarded by `transaction_id`
truthiness). -/
def freedompay_lock_key (d : FreedomPayPayload) : String :=
  if truthy d.transaction_id then
    (if truthy d.order_id then pyStr d.order_id else pyStr d.transaction_id)
  else "unknown"

/-- Record lookup of the FreedomPay callback: by embedded `order_id` first,
by embedded `freedompay_transaction_id` second. -/
def freedompay_find_request (d : FreedomPayPayload) (db : List IntegrationRequest) :
    Option IntegrationRequest :=
  match find_request_by db "FreedomPay" (fun x => x.order_id) d.order_id with
  | some r => some r
  | none => find_request_by db "FreedomPay" (fun x => x.freedompay_transaction_id) d.transaction_id

/-- Acknowledgment envelope of the FreedomPay callback. -/
inductive FreedomPayCbResult
  | rateLimited (msg : String)
  | success
  | failed (msg : String)
  | caught (msg : String)
deriving DecidableEq

/-- Full observable outcome of one FreedomPay callback delivery. -/
structure FreedomPayCbOutput where
  result : FreedomPayCbResult
  db : List IntegrationRequest
  handoffs : List (String × String)
  retries : List (String × Nat)
deriving DecidableEq

/-- Embedding of the module-level FreedomPay `callback`.  `signature` is the
resolved `X-FreedomPay-Signature or Signature or data.signature` value. -/
def freedompay_callback (hmacSha256 : String → String → String) (secret_key : String)
    (rateOk : Bool) (locks : List String) (signature : Option String)
    (d : FreedomPayPayload) (db : List IntegrationRequest) : FreedomPayCbOutput :=
  if !rateOk then
    ⟨.rateLimited "Rate limit exceeded. Please try again later.", db, [], []⟩
  else if !truthy signature then
    ⟨.caught "Missing signature in callback", db, [], []⟩
  else if !FreedomPaySettings.verify_signature hmacSha256 secret_key d (pyStr signature) then
    ⟨.caught "Invalid signature", db, [], []⟩
  else if ("payment_lock_" ++ freedompay_lock_key d) ∈ locks then
    ⟨.caught "Payment is already being processed. Please wait.", db, [], []⟩
  else
    match freedompay_find_request d db with
    | none => ⟨.caught "Integration Request not found", db, [], []⟩
    | some ir =>
      let data' := { ir.data with freedompay_transaction_id := d.transaction_id,
                                  status := d.status, amount := d.amount }
      if freedompay_is_success d.status then
        ⟨.success,
          update_request db ir.name { ir with data := data', status := IRStatus.Completed },
          handoff_calls ir, []⟩
      else
        ⟨.failed ("Payment " ++ pyStr d.status),
          update_request db ir.name
            { ir with data := data', status := IRStatus.Failed,
                      error := some ("Payment status: " ++ pyStr d.status) },
          [], [(ir.name, 0)]⟩

/-- Constant stand-in for `hashlib.md5(...).hexdigest()` in concrete runs. -/
def constDigest : String → String := fun _ => "d1gest"

/-- Constant stand-in for keyed HMAC-SHA256 in concrete runs. -/
def constHmac : String → String → String := fun _ _ => "hm4c"

/-- Constant stand-in for `json.dumps(data, sort_keys=True)` in concrete runs. -/
def constDump : PaymePayload → String := fun _ => "body"

/-- Payme success callback payload used by the replay scenario. -/
def c1_payload : PaymePayload := ⟨some "PMT-1", some "ORDER-1", some "paid"⟩

/-- Queued record awaiting the Payme callback in the replay scenario. -/
def c1_record : IntegrationRequest :=
  { name := "IR-0"
    service := "Payme"
    status := IRStatus.Queued
    data := { emptyIRData with order_id := some "ORDER-1" }
    error := none
    reference_doctype := some "Sales Invoice"
    reference_docname := some "SI-1" }

/-- First delivery of the Payme `status="paid"` callback. -/
def c1_run1 : PaymeCbOutput :=
  payme_callback constHmac "key" constDump true [] (some "hm4c") c1_payload [c1_record]

/-- Second, identical delivery of the same callback against the state the
first delivery left behind. -/
def c1_run2 : PaymeCbOutput :=
  payme_callback constHmac "key" constDump true [] (some "hm4c") c1_payload c1_run1.db

/-- The record of the replay scenario after the first delivery: Completed,
gateway fields merged. -/
def c1_completed_record : IntegrationRequest :=
  { c1_record with
      status := IRStatus.Completed
      data := { c1_record.data with payme_payment_id := some "PMT-1", status := some "paid" } }

/-- Click callback payload carrying a failure status (`action = "1"`, error
set) with a signature the constant digest accepts. -/
def c2_payload : ClickCallbackData :=
  { merchant_id := some "M-1"
    service_id := some "S-1"
    click_trans_id := some "CT-1"
    merchant_trans_id := some "ORDER-2"
    amount := some "100000"
    action := some "1"
    error := some "-31"
    error_note := some "SIGN CHECK FAILED"
    sign_time := some "2026-01-01 10:00:00"
    sign_string := some "d1gest" }

/-- Queued record the failing Click callback of the retry scenario targets. -/
def c2_record : IntegrationRequest :=
  { name := "IR-1"
    service := "Click"
    status := IRStatus.Queued
    data := { emptyIRData with order_id := some "ORDER-2" }
    error := none
    reference_doctype := none
    reference_docname := none }

/-- Delivery of the failing Click callback: its failure branch calls
`WebhookRetry.schedule_retry(name, 0)`. -/
def c2_run : ClickCbOutput :=
  click_callback constDigest "sk" true [] c2_payload [c2_record]

/-- Record `ClickSettings.get_payment_url` persists on a successful checkout
creation, as a function of the inputs: used to state idempotency results. -/
def clickCreatedRequest (kwargs : PaymentKwargs) (r : ClickApiResponse) (ts : String)
    (db : List IntegrationRequest) : IntegrationRequest :=
  { name := "IR-" ++ toString db.length
    service := "Click"
    status := IRStatus.Queued
    data := { emptyIRData with
        order_id := kwargs.order_id
        payment_url := pyOr r.payment_url r.redirect_url
        click_trans_id := r.click_trans_id
        idempotency_key := some (PaymentIdempotency.generate_idempotency_key "Click"
          (pyStr kwargs.order_id) ts) }
    error := none
    reference_doctype := kwargs.reference_doctype
    reference_docname := kwargs.reference_docname }

/-- Click success payload replayed against an already-Completed record. -/
def c1w_click_payload : ClickCallbackData :=
  { merchant_id := some "M-9"
    service_id := some "S-9"
    click_trans_id := some "CT-9"
    merchant_trans_id := some "ORDER-9"
    amount := some "5000"
    action := some "0"
    error := none
    error_note := none
    sign_time := some "t9"
    sign_string := some "d1gest" }

/-- Click record already Completed with the gateway fields merged by a
previous delivery of `c1w_click_payload`. -/
def c1w_click_record : IntegrationRequest :=
  { name := "IR-9"
    service := "Click"
    status := IRStatus.Completed
    data := { emptyIRData with order_id := some "ORDER-9", click_trans_id := some "CT-9",
                               action := some "0" }
    error := none
    reference_doctype := some "Sales Order"
    reference_docname := some "SO-9" }

/-- Click payload whose `sign_string` does not match the recomputed digest. -/
def c4_click_bad : ClickCallbackData :=
  { c2_payload with sign_string := some "WRONG" }

/-- Payme payload used with an absent signature header. -/
def c4_payme_payload : PaymePayload := ⟨some "PMT-4", some "ORDER-4", some "paid"⟩

/-- FreedomPay payload delivered with a non-matching signature. -/
def c4_fp_payload : FreedomPayPayload :=
  ⟨some "M-5", some "T-5", some "TX-5", some "ORDER-5", some "100000", some "success"⟩

/-- Checkout kwargs of the concrete idempotency scenario. -/
def c3_kwargs : PaymentKwargs :=
  { order_id := some "ORDER-1"
    amount := 50000
    reference_doctype := some "Sales Invoice"
    reference_docname := some "SI-1"
    redirect_to := none }

/-- Click checkout-creation response of the concrete idempotency scenario. -/
def c3_resp : ClickApiResponse :=
  { click_trans_id := some "CT-1"
    payment_url := some "https://pay.example/1"
    redirect_url := none }

/-- Payme payload carrying a status outside the success set. -/
def c6_payme_payload : PaymePayload := ⟨some "PMT-6", some "ORDER-6", some "error"⟩

/-- Queued Payme record targeted by `c6_payme_payload`. -/
def c6_payme_record : IntegrationRequest :=
  { name := "IR-6"
    service := "Payme"
    status := IRStatus.Queued
    data := { emptyIRData with order_id := some "ORDER-6" }
    error := none
    reference_doctype := none
    reference_docname := none }

/-- FreedomPay payload carrying a status outside the success set. -/
def c6_fp_payload : FreedomPayPayload :=
  ⟨some "M-7", some "T-7", some "TX-7", some "ORDER-7", some "2000", some "failed"⟩

/-- Queued FreedomPay record targeted by `c6_fp_payload`. -/
def c6_fp_record : IntegrationRequest :=
  { name := "IR-7"
    service := "FreedomPay"
    status := IRStatus.Queued
    data := { emptyIRData with order_id := some "ORDER-7" }
    error := none
    reference_doctype := none
    reference_docname := none }

lemma roundHalfEven_intCast (m : ℤ) : roundHalfEven (m : ℚ) = m := by
  unfold roundHalfEven
  rw [Int.floor_intCast, if_pos (by norm_num)]

lemma pyRound2_intCast (m : ℤ) : pyRound2 (m : ℚ) = m := by
  unfold pyRound2
  rw [show ((100 : ℚ) * m) = ((100 * m : ℤ) : ℚ) by push_cast; ring, roundHalfEven_intCast]
  push_cast
  field_simp

/-- C5.  `validate_payment_amount` raises exactly on the four rejection
conditions and returns `True` otherwise; the boundary instances behave as
the spec lists them (999 rejected, 1000 and 100000000 accepted, 100000000.01
and 10.005 rejected). -/
theorem validate_payment_amount_spec :
    (∀ a : ℚ, validate_payment_amount a = .ok true ↔
      ¬(a ≤ 0 ∨ a < 1000 ∨ 100000000 < a ∨ pyRound2 a ≠ a)) ∧
    (∀ a : ℚ, (∃ e, validate_payment_amount a = .error e) ↔
      (a ≤ 0 ∨ a < 1000 ∨ 100000000 < a ∨ pyRound2 a ≠ a)) ∧
    (∃ e, validate_payment_amount 999 = .error e) ∧
    validate_payment_amount 1000 = .ok true ∧
    validate_payment_amount 100000000 = .ok true ∧
    (∃ e, validate_payment_amount 100000000.01 = .error e) ∧
    (∃ e, validate_payment_amount 10.005 = .error e) := by
  have h1000 : pyRound2 1000 = 1000 := by
    simpa using pyRound2_intCast 1000
  have h1e8 : pyRound2 100000000 = 100000000 := by
    simpa using pyRound2_intCast 100000000
  refine ⟨?_, ?_, ?_, ?_, ?_, ?_, ?_⟩
  · intro a
    unfold validate_payment_amount
    split_ifs with hc1 hc2 hc3 hc4
    · exact iff_of_false (by simp) (by simp [hc1])
    · exact iff_of_false (by simp) (by simp [hc2])
    · exact iff_of_false (by simp) (by simp [hc3])
    · exact iff_of_false (by simp) (by simp [hc4])
    · refine iff_of_true rfl ?_
      push_neg
      exact ⟨not_le.mp hc1, not_lt.mp hc2, not_lt.mp hc3, not_not.mp hc4⟩
  · intro a
    unfold validate_payment_amount
    split_ifs with hc1 hc2 hc3 hc4
    · exact iff_of_true ⟨_, rfl⟩ (by simp [hc1])
    · exact iff_of_true ⟨_, rfl⟩ (by simp [hc2])
    · exact iff_of_true ⟨_, rfl⟩ (by simp [hc3])
    · exact iff_of_true ⟨_, rfl⟩ (by simp [hc4])
    · refine iff_of_false (by simp) ?_
      push_neg
      exact ⟨not_le.mp hc1, not_lt.mp hc2, not_lt.mp hc3, not_not.mp hc4⟩
  · refine ⟨"Payment amount must be at least 1000 UZS", ?_⟩
    unfold validate_payment_amount
    rw [if_neg (by norm_num), if_pos (by norm_num)]
  · unfold validate_payment_amount
    rw [if_neg (by norm_num), if_neg (by norm_num), if_neg (by norm_num),
      if_neg (by simp [h1000])]
  · unfold validate_payment_amount
    rw [if_neg (by norm_num), if_neg (by norm_num), if_neg (by norm_num),
      if_neg (by simp [h1e8])]
  · refine ⟨"Payment amount must not exceed 100000000 UZS", ?_⟩
    unfold validate_payment_amount
    rw [if_neg (by norm_num), if_neg (by norm_num), if_pos (by norm_num)]
  · refine ⟨"Payment amount must be at least 1000 UZS", ?_⟩
    unfold validate_payment_amount
    rw [if_neg (by norm_num), if_pos (by norm_num)]

/-- C7.  `ClickSettings.verify_signature` returns `True` exactly when the
provided `sign_string` equals the digest of
`click_trans_id + service_id + secret_key + merchant_trans_id + amount +
action + sign_time`, with the `error` field appended when present and truthy;
the comparison is `hmac.compare_digest`, modeled as string equality (its
constant-time execution is a timing property the embedding cannot state). -/
theorem click_verify_signature_spec (md5hex : String → String) (secret_key : String)
    (d : ClickCallbackData) :
    ClickSettings.verify_signature md5hex secret_key d = .ok true ↔
      d.sign_string = some (md5hex
        (pyStr d.click_trans_id ++ pyStr d.service_id ++ secret_key ++
          pyStr d.merchant_trans_id ++ pyStr d.amount ++ pyStr d.action ++ pyStr d.sign_time ++
          (if truthy d.error then pyStr d.error else ""))) := by
  have hsign : (if truthy d.error then clickSignBase secret_key d ++ pyStr d.error
      else clickSignBase secret_key d) =
      clickSignBase secret_key d ++ (if truthy d.error then pyStr d.error else "") := by
    cases truthy d.error <;> simp
  unfold ClickSettings.verify_signature
  rw [hsign]
  cases hs : d.sign_string with
  | none => simp
  | some s =>
    unfold clickSignBase
    simp only [Except.ok.injEq, Option.some.injEq, beq_iff_eq]
    exact eq_comm

/-- C8.  `payment_lock` is non-blocking and exclusive: when the key is held
it raises the distinct already-being-processed error immediately and touches
nothing; when acquisition succeeds the critical section's result is passed
through and the key is released on both exit paths (normal return and
raised error alike). -/
theorem payment_lock_spec {σ α : Type} (order_id : String) (locks : List String)
    (st : σ) (body : σ → Except String α × σ) :
    (("payment_lock_" ++ order_id) ∈ locks →
      payment_lock order_id locks st body =
        (.error "Payment is already being processed. Please wait.", st, locks)) ∧
    (("payment_lock_" ++ order_id) ∉ locks →
      payment_lock order_id locks st body = ((body st).1, (body st).2, locks)) := by
  constructor
  · intro h
    simp [payment_lock, h]
  · intro h
    simp [payment_lock, h, List.erase_cons_head]

/-- Witness for C8: a held lock rejects immediately; a free lock runs the
body and is released even when the body raises. -/
theorem payment_lock_spec_witness :
    (payment_lock "ORD" ["payment_lock_ORD"] (0 : Nat) (fun n => (Except.ok n, n + 1)) =
      (Except.error "Payment is already being processed. Please wait.", 0, ["payment_lock_ORD"])) ∧
    (payment_lock "ORD" [] (0 : Nat)
        (fun n => ((Except.error "boom" : Except String Nat), n + 1)) =
      (Except.error "boom", 1, [])) :=
  ⟨(payment_lock_spec "ORD" ["payment_lock_ORD"] 0 (fun n => (Except.ok n, n + 1))).1 (by decide),
    (payment_lock_spec "ORD" [] 0
      (fun n => ((Except.error "boom" : Except String Nat), n + 1))).2 (by decide)⟩

lemma sanitize_value_str (s : String) :
    sanitize_value (PyVal.str s) = PyVal.str (truncate1000 (remove_control_chars s)) := rfl

lemma sanitize_value_num (n : ℤ) : sanitize_value (PyVal.num n) = PyVal.num n := rfl

lemma truncate1000_eq_take (s : String) : truncate1000 s = String.mk (s.data.take 1000) := by
  unfold truncate1000
  split_ifs with h
  · rfl
  · cases s with
    | mk l =>
      have hl : l.length ≤ 1000 := by
        simpa [String.length] using Nat.le_of_not_lt h
      simp [List.take_of_length_le hl]

/-- C10.  `sanitize_payment_data` keeps exactly the input keys; every string
value reappears with the control characters 0x00-0x1f and 0x7f-0x9f removed
and truncated to at most 1000 characters; every non-string value is returned
unchanged. -/
theorem sanitize_payment_data_spec (data : List (String × PyVal)) :
    ((sanitize_payment_data data).map Prod.fst = data.map Prod.fst) ∧
    (∀ k s, (k, PyVal.str s) ∈ data →
      (k, PyVal.str (String.mk ((s.data.filter (fun c => !is_control_char c)).take 1000))) ∈
        sanitize_payment_data data) ∧
    (∀ k s, (k, PyVal.str s) ∈ sanitize_payment_data data → s.length ≤ 1000) ∧
    (∀ k n, (k, PyVal.num n) ∈ sanitize_payment_data data ↔ (k, PyVal.num n) ∈ data) := by
  refine ⟨?_, ?_, ?_, ?_⟩
  · unfold sanitize_payment_data
    rw [List.map_map]
    rfl
  · intro k s hmem
    unfold sanitize_payment_data
    refine List.mem_map.mpr ⟨(k, PyVal.str s), hmem, ?_⟩
    simp [sanitize_value_str, truncate1000_eq_take, remove_control_chars]
  · intro k s hmem
    obtain ⟨⟨k0, v0⟩, hv0, heq⟩ := List.mem_map.mp hmem
    cases v0 with
    | str s0 =>
      have hs : truncate1000 (remove_control_chars s0) = s := by
        simpa [sanitize_value_str] using congrArg Prod.snd heq
      rw [← hs, truncate1000_eq_take]
      show ((remove_control_chars s0).data.take 1000).length ≤ 1000
      exact List.length_take_le 1000 (remove_control_chars s0).data
    | num n0 =>
      rw [sanitize_value_num] at heq
      simp at heq
  · intro k n
    constructor
    · intro hmem
      obtain ⟨⟨k0, v0⟩, hv0, heq⟩ := List.mem_map.mp hmem
      cases v0 with
      | str s0 =>
        rw [sanitize_value_str] at heq
        simp at heq
      | num n0 =>
        obtain ⟨hk, hn⟩ : k0 = k ∧ n0 = n := by
          rw [sanitize_value_num] at heq
          simpa using heq
        rw [← hk, ← hn]
        exact hv0
    · intro hmem
      exact List.mem_map.mpr ⟨(k, PyVal.num n), hmem, rfl⟩

/-- Witness for C10 on a concrete dictionary: keys preserved, the NUL byte
removed from the string value, the numeric value untouched. -/
theorem sanitize_payment_data_spec_witness :
    ((sanitize_payment_data [("order_id", PyVal.str "h\x00i"), ("amount", PyVal.num 7)]).map
      Prod.fst = ["order_id", "amount"]) ∧
    (("order_id", PyVal.str "hi") ∈
      sanitize_payment_data [("order_id", PyVal.str "h\x00i"), ("amount", PyVal.num 7)]) ∧
    (("amount", PyVal.num 7) ∈
      sanitize_payment_data [("order_id", PyVal.str "h\x00i"), ("amount", PyVal.num 7)]) :=
  ⟨(sanitize_payment_data_spec [("order_id", PyVal.str "h\x00i"), ("amount", PyVal.num 7)]).1,
    (sanitize_payment_data_spec [("order_id", PyVal.str "h\x00i"), ("amount", PyVal.num 7)]).2.1
      "order_id" "h\x00i" (by decide),
    ((sanitize_payment_data_spec [("order_id", PyVal.str "h\x00i"), ("amount", PyVal.num 7)]).2.2.2
      "amount" 7).mpr (by decide)⟩

/-- C2 (failing-input evaluation).  `WebhookRetry.schedule_retry` does enqueue
delays 60, 300, 900 carrying `attempt+1` for attempts 0,1,2 and drops attempt
3 with the retry-limit diagnostic; but when the attempt-3 retry task is
delivered and reconciliation fails a 4th consecutive time, the gateway
callback's failure branch still calls `schedule_retry(name, 0)` (see
`c2_run.retries`), so a 4th retry at delay 60 is enqueued after the drop. -/
theorem webhook_retry_fourth_failure_reschedules :
    WebhookRetry.schedule_retry "IR-1" 0 = RetryAction.enqueued "IR-1" 60 1 ∧
    WebhookRetry.schedule_retry "IR-1" 1 = RetryAction.enqueued "IR-1" 300 2 ∧
    WebhookRetry.schedule_retry "IR-1" 2 = RetryAction.enqueued "IR-1" 900 3 ∧
    WebhookRetry.schedule_retry "IR-1" 3 =
      RetryAction.droppedLogged "Webhook retry limit exceeded for IR-1" ∧
    process_webhook_retry_fail_enqueues "IR-1" 3 = [("IR-1", 60, 1)] ∧
    c2_run.result = ClickCbResult.failed (some "-31") (some "SIGN CHECK FAILED") ∧
    c2_run.retries = [("IR-1", 0)] := by
  decide

/-- C1 (counterexample).  A Payme `status="paid"` callback delivered twice:
both deliveries return the success envelope and the record ends Completed,
but `on_payment_authorized` is invoked on each delivery, so across the two
deliveries the host hand-off fires twice, not at most once. -/
theorem payme_replay_double_handoff :
    c1_run1.result = PaymeCbResult.success ∧
    c1_run1.db = [c1_completed_record] ∧
    c1_run2.result = PaymeCbResult.success ∧
    c1_run2.db = [c1_completed_record] ∧
    c1_run1.handoffs = [("Sales Invoice", "SI-1")] ∧
    c1_run2.handoffs = [("Sales Invoice", "SI-1")] ∧
    c1_run1.retries = [] ∧
    c1_run2.retries = [] ∧
    ¬((c1_run1.handoffs ++ c1_run2.handoffs).length ≤ 1) := by
  decide

/-- C1 (amended).  Replaying a verified success callback against a record
already Completed returns the success envelope, saves the record with status
still Completed and schedules no retry; but the replay is not a strict no-op:
`on_payment_authorized` is invoked again, once per delivery, whenever the
record's reference fields are set (for Payme and Click alike). -/
theorem completed_replay_success_and_handoff_per_delivery :
    (∀ (hmacSha256 : String → String → String) (merchant_key : String)
        (dump : PaymePayload → String) (locks : List String) (signature : Option String)
        (d : PaymePayload) (db : List IntegrationRequest) (ir : IntegrationRequest),
      truthy signature = true →
      PaymeSettings.verify_signature hmacSha256 merchant_key dump d (pyStr signature) = true →
      ("payment_lock_" ++ payme_lock_key d) ∉ locks →
      payme_find_request d db = some ir →
      ir.status = IRStatus.Completed →
      truthy ir.reference_doctype = true →
      truthy ir.reference_docname = true →
      payme_is_success d.status = true →
      payme_callback hmacSha256 merchant_key dump true locks signature d db =
        ⟨PaymeCbResult.success,
          update_request db ir.name
            { ir with data := { ir.data with payme_payment_id := d.id, status := d.status },
                      status := IRStatus.Completed },
          [(pyStr ir.reference_doctype, pyStr ir.reference_docname)], []⟩) ∧
    (∀ (md5hex : String → String) (secret_key : String) (locks : List String)
        (d : ClickCallbackData) (db : List IntegrationRequest) (ir : IntegrationRequest),
      ClickSettings.verify_signature md5hex secret_key d = .ok true →
      ("payment_lock_" ++ click_lock_key d) ∉ locks →
      click_find_request d db = some ir →
      ir.status = IRStatus.Completed →
      truthy ir.reference_doctype = true →
      truthy ir.reference_docname = true →
      click_is_success d.action d.error = true →
      click_callback md5hex secret_key true locks d db =
        ⟨ClickCbResult.success,
          update_request db ir.name
            { ir with
                data := { ir.data with
                    click_trans_id := d.click_trans_id
                    action := d.action
                    error := d.error
                    error_note := d.error_note }
                status := IRStatus.Completed },
          [(pyStr ir.reference_doctype, pyStr ir.reference_docname)], []⟩) := by
  constructor
  · intro hm mk dump locks sig d db ir hsig hver hlock hfind hst hrd hrn hsucc
    simp [payme_callback, handoff_calls, hsig, hver, hfind, hsucc, hlock, hrd, hrn]
  · intro md5hex secret_key locks d db ir hver hlock hfind hst hrd hrn hsucc
    simp [click_callback, handoff_calls, hver, hfind, hsucc, hlock, hrd, hrn]

/-- Witness for the amended C1: a Payme replay and a Click replay against
concrete Completed records, each re-invoking the hand-off once. -/
theorem completed_replay_success_and_handoff_witness :
    payme_callback constHmac "key" constDump true [] (some "hm4c") c1_payload
        [c1_completed_record] =
      ⟨PaymeCbResult.success, [c1_completed_record], [("Sales Invoice", "SI-1")], []⟩ ∧
    click_callback constDigest "sk" true [] c1w_click_payload [c1w_click_record] =
      ⟨ClickCbResult.success, [c1w_click_record], [("Sales Order", "SO-9")], []⟩ :=
  ⟨completed_replay_success_and_handoff_per_delivery.1 constHmac "key" constDump []
      (some "hm4c") c1_payload [c1_completed_record] c1_completed_record
      (by decide) (by decide) (by decide) (by decide) (by decide) (by decide) (by decide)
      (by decide),
    completed_replay_success_and_handoff_per_delivery.2 constDigest "sk" []
      c1w_click_payload [c1w_click_record] c1w_click_record
      rfl (by decide) (by decide) (by decide) (by decide) (by decide) (by decide)⟩

/-- C4.  A callback whose signature is missing or fails verification is
rejected before any record lookup or mutation, for all three gateways: the
table is returned untouched, no retry is scheduled, no hand-off happens, and
the response is the caught-error envelope (never the classified
failed-payment envelope of the reconciliation branch). -/
theorem auth_failure_rejected_before_lookup :
    (∀ (md5hex : String → String) (secret_key : String) (locks : List String)
        (d : ClickCallbackData) (db : List IntegrationRequest),
      d.sign_string = none →
      click_callback md5hex secret_key true locks d db =
        ⟨ClickCbResult.caught "TypeError: unsupported operand type for compare_digest",
          db, [], []⟩) ∧
    (∀ (md5hex : String → String) (secret_key : String) (locks : List String)
        (d : ClickCallbackData) (db : List IntegrationRequest),
      ClickSettings.verify_signature md5hex secret_key d = .ok false →
      click_callback md5hex secret_key true locks d db =
        ⟨ClickCbResult.caught "Invalid signature", db, [], []⟩) ∧
    (∀ (hmacSha256 : String → String → String) (merchant_key : String)
        (dump : PaymePayload → String) (locks : List String) (signature : Option String)
        (d : PaymePayload) (db : List IntegrationRequest),
      truthy signature = false →
      payme_callback hmacSha256 merchant_key dump true locks signature d db =
        ⟨PaymeCbResult.caught "Missing signature in callback", db, [], []⟩) ∧
    (∀ (hmacSha256 : String → String → String) (merchant_key : String)
        (dump : PaymePayload → String) (locks : List String) (signature : Option String)
        (d : PaymePayload) (db : List IntegrationRequest),
      truthy signature = true →
      PaymeSettings.verify_signature hmacSha256 merchant_key dump d (pyStr signature) = false →
      payme_callback hmacSha256 merchant_key dump true locks signature d db =
        ⟨PaymeCbResult.caught "Invalid signature", db, [], []⟩) ∧
    (∀ (hmacSha256 : String → String → String) (secret_key : String) (locks : List String)
        (signature : Option String) (d : FreedomPayPayload) (db : List IntegrationRequest),
      truthy signature = false →
      freedompay_callback hmacSha256 secret_key true locks signature d db =
        ⟨FreedomPayCbResult.caught "Missing signature in callback", db, [], []⟩) ∧
    (∀ (hmacSha256 : String → String → String) (secret_key : String) (locks : List String)
        (signature : Option String) (d : FreedomPayPayload) (db : List IntegrationRequest),
      truthy signature = true →
      FreedomPaySettings.verify_signature hmacSha256 secret_key d (pyStr signature) = false →
      freedompay_callback hmacSha256 secret_key true locks signature d db =
        ⟨FreedomPayCbResult.caught "Invalid signature", db, [], []⟩) := by
  refine ⟨?_, ?_, ?_, ?_, ?_, ?_⟩
  · intro md5hex secret_key locks d db hnone
    simp [click_callback, ClickSettings.verify_signature, hnone]
  · intro md5hex secret_key locks d db hver
    simp [click_callback, hver]
  · intro hm mk dump locks sig d db hsig
    simp [payme_callback, hsig]
  · intro hm mk dump locks sig d db hsig hver
    simp [payme_callback, hsig, hver]
  · intro hm sk locks sig d db hsig
    simp [freedompay_callback, hsig]
  · intro hm sk locks sig d db hsig hver
    simp [freedompay_callback, hsig, hver]

/-- Witness for C4: concrete missing-signature and bad-signature deliveries
against concrete tables, each rejected with the table untouched. -/
theorem auth_failure_rejected_witness :
    (click_callback constDigest "sk" true [] { c2_payload with sign_string := none }
        [c2_record] =
      ⟨ClickCbResult.caught "TypeError: unsupported operand type for compare_digest",
        [c2_record], [], []⟩) ∧
    (click_callback constDigest "sk" true [] c4_click_bad [c2_record] =
      ⟨ClickCbResult.caught "Invalid signature", [c2_record], [], []⟩) ∧
    (payme_callback constHmac "key" constDump true [] none c4_payme_payload [c1_record] =
      ⟨PaymeCbResult.caught "Missing signature in callback", [c1_record], [], []⟩) ∧
    (payme_callback constHmac "key" constDump true [] (some "BAD") c4_payme_payload
        [c1_record] =
      ⟨PaymeCbResult.caught "Invalid signature", [c1_record], [], []⟩) ∧
    (freedompay_callback constHmac "fpsecret" true [] none c4_fp_payload [c6_fp_record] =
      ⟨FreedomPayCbResult.caught "Missing signature in callback", [c6_fp_record], [], []⟩) ∧
    (freedompay_callback constHmac "fpsecret" true [] (some "WRONG") c4_fp_payload
        [c6_fp_record] =
      ⟨FreedomPayCbResult.caught "Invalid signature", [c6_fp_record], [], []⟩) :=
  ⟨auth_failure_rejected_before_lookup.1 constDigest "sk" []
      { c2_payload with sign_string := none } [c2_record] rfl,
    auth_failure_rejected_before_lookup.2.1 constDigest "sk" [] c4_click_bad [c2_record] rfl,
    auth_failure_rejected_before_lookup.2.2.1 constHmac "key" constDump [] none
      c4_payme_payload [c1_record] rfl,
    auth_failure_rejected_before_lookup.2.2.2.1 constHmac "key" constDump [] (some "BAD")
      c4_payme_payload [c1_record] rfl rfl,
    auth_failure_rejected_before_lookup.2.2.2.2.1 constHmac "fpsecret" [] none
      c4_fp_payload [c6_fp_record] rfl,
    auth_failure_rejected_before_lookup.2.2.2.2.2 constHmac "fpsecret" [] (some "WRONG")
      c4_fp_payload [c6_fp_record] rfl rfl⟩

/-- C6.  Each gateway's success classification is exactly the spec's mapping
table (Click: `action == "0"` and no error; FreedomPay: status in success,
completed, paid, "1"; Payme: status in paid, completed), and on a verified,
matched callback every other status takes the failure branch, which saves the
record with status Failed. -/
theorem callback_status_classification :
    (∀ action error, click_is_success action error = true ↔
      (action = some "0" ∧ truthy error = false)) ∧
    (∀ s, payme_is_success s = true ↔ (s = some "paid" ∨ s = some "completed")) ∧
    (∀ s, freedompay_is_success s = true ↔
      (s = some "success" ∨ s = some "completed" ∨ s = some "paid" ∨ s = some "1")) ∧
    (∀ (md5hex : String → String) (secret_key : String) (locks : List String)
        (d : ClickCallbackData) (db : List IntegrationRequest) (ir : IntegrationRequest),
      ClickSettings.verify_signature md5hex secret_key d = .ok true →
      ("payment_lock_" ++ click_lock_key d) ∉ locks →
      click_find_request d db = some ir →
      click_is_success d.action d.error = false →
      click_callback md5hex secret_key true locks d db =
        ⟨ClickCbResult.failed d.error d.error_note,
          update_request db ir.name
            { ir with
                data := { ir.data with
                    click_trans_id := d.click_trans_id
                    action := d.action
                    error := d.error
                    error_note := d.error_note }
                status := IRStatus.Failed
                error := some (if truthy d.error_note then pyStr d.error_note
                               else "Payment failed: " ++ pyStr d.error) },
          [], [(ir.name, 0)]⟩) ∧
    (∀ (hmacSha256 : String → String → String) (merchant_key : String)
        (dump : PaymePayload → String) (locks : List String) (signature : Option String)
        (d : PaymePayload) (db : List IntegrationRequest) (ir : IntegrationRequest),
      truthy signature = true →
      PaymeSettings.verify_signature hmacSha256 merchant_key dump d (pyStr signature) = true →
      ("payment_lock_" ++ payme_lock_key d) ∉ locks →
      payme_find_request d db = some ir →
      payme_is_success d.status = false →
      payme_callback hmacSha256 merchant_key dump true locks signature d db =
        ⟨PaymeCbResult.failed ("Payment " ++ pyStr d.status),
          update_request db ir.name
            { ir with
                data := { ir.data with payme_payment_id := d.id, status := d.status }
                status := IRStatus.Failed
                error := some ("Payment status: " ++ pyStr d.status) },
          [], [(ir.name, 0)]⟩) ∧
    (∀ (hmacSha256 : String → String → String) (secret_key : String) (locks : List String)
        (signature : Option String) (d : FreedomPayPayload) (db : List IntegrationRequest)
        (ir : IntegrationRequest),
      truthy signature = true →
      FreedomPaySettings.verify_signature hmacSha256 secret_key d (pyStr signature) = true →
      ("payment_lock_" ++ freedompay_lock_key d) ∉ locks →
      freedompay_find_request d db = some ir →
      freedompay_is_success d.status = false →
      freedompay_callback hmacSha256 secret_key true locks signature d db =
        ⟨FreedomPayCbResult.failed ("Payment " ++ pyStr d.status),
          update_request db ir.name
            { ir with
                data := { ir.data with
                    freedompay_transaction_id := d.transaction_id
                    status := d.status
                    amount := d.amount }
                status := IRStatus.Failed
                error := some ("Payment status: " ++ pyStr d.status) },
          [], [(ir.name, 0)]⟩) := by
  refine ⟨?_, ?_, ?_, ?_, ?_, ?_⟩
  · intro action error
    simp [click_is_success]
  · intro s
    simp [payme_is_success]
  · intro s
    simp [freedompay_is_success]
    tauto
  · intro md5hex secret_key locks d db ir hver hlock hfind hfail
    simp [click_callback, hver, hlock, hfind, hfail]
  · intro hm mk dump locks sig d db ir hsig hver hlock hfind hfail
    simp [payme_callback, hsig, hver, hlock, hfind, hfail]
  · intro hm sk locks sig d db ir hsig hver hlock hfind hfail
    simp [freedompay_callback, hsig, hver, hlock, hfind, hfail]

/-- Witness for C6: a concrete success-classification instance and the three
failure branches on concrete non-success callbacks, each leaving the matched
record Failed. -/
theorem callback_status_classification_witness :
    click_is_success (some "0") none = true ∧
    (click_callback constDigest "sk" true [] c2_payload [c2_record] =
      ⟨ClickCbResult.failed (some "-31") (some "SIGN CHECK FAILED"),
        [{ c2_record with
            data := { c2_record.data with
                click_trans_id := some "CT-1"
                action := some "1"
                error := some "-31"
                error_note := some "SIGN CHECK FAILED" }
            status := IRStatus.Failed
            error := some "SIGN CHECK FAILED" }],
        [], [("IR-1", 0)]⟩) ∧
    (payme_callback constHmac "key" constDump true [] (some "hm4c") c6_payme_payload
        [c6_payme_record] =
      ⟨PaymeCbResult.failed "Payment error",
        [{ c6_payme_record with
            data := { c6_payme_record.data with
                payme_payment_id := some "PMT-6"
                status := some "error" }
            status := IRStatus.Failed
            error := some "Payment status: error" }],
        [], [("IR-6", 0)]⟩) ∧
    (freedompay_callback constHmac "fpsecret" true [] (some "hm4c") c6_fp_payload
        [c6_fp_record] =
      ⟨FreedomPayCbResult.failed "Payment failed",
        [{ c6_fp_record with
            data := { c6_fp_record.data with
                freedompay_transaction_id := some "TX-7"
                status := some "failed"
                amount := some "2000" }
            status := IRStatus.Failed
            error := some "Payment status: failed" }],
        [], [("IR-7", 0)]⟩) :=
  ⟨(callback_status_classification.1 (some "0") none).mpr ⟨rfl, rfl⟩,
    callback_status_classification.2.2.2.1 constDigest "sk" [] c2_payload [c2_record]
      c2_record rfl (by decide) (by decide) rfl,
    callback_status_classification.2.2.2.2.1 constHmac "key" constDump [] (some "hm4c")
      c6_payme_payload [c6_payme_record] c6_payme_record rfl rfl (by decide) (by decide) rfl,
    callback_status_classification.2.2.2.2.2 constHmac "fpsecret" [] (some "hm4c")
      c6_fp_payload [c6_fp_record] c6_fp_record rfl rfl (by decide) (by decide) rfl⟩

lemma update_request_append_fresh (db : List IntegrationRequest)
    (ir0 ir1 : IntegrationRequest) (h : ∀ rec ∈ db, rec.name ≠ ir0.name) :
    update_request (db ++ [ir0]) ir0.name ir1 = db ++ [ir1] := by
  unfold update_request
  rw [List.map_append]
  congr 1
  · calc (db.map fun rec => if rec.name == ir0.name then ir1 else rec)
        = db.map id := List.map_congr_left (by intro rec hrec; simp [h rec hrec])
    _ = db := List.map_id db
  · simp


lemma truthy_none : truthy none = false := rfl

lemma truthy_some (s : String) : truthy (some s) = !(s == "") := rfl

lemma validate_payment_amount_50000 : validate_payment_amount 50000 = .ok true := by
  have hr : pyRound2 50000 = 50000 := by simpa using pyRound2_intCast 50000
  unfold validate_payment_amount
  rw [if_neg (by norm_num), if_neg (by norm_num), if_neg (by norm_num),
    if_neg (by simp [hr])]

/-- C3.  Calling `get_payment_url` a second time with the same `order_id`
before any callback arrives finds the existing Queued record through
`check_existing_payment`, returns the cached `payment_url`, and creates no
second record: exactly one record exists after both calls, and both calls
return the same URL. -/
theorem get_payment_url_idempotent (resp2 : Option ClickApiResponse) (ts1 ts2 : String)
    (kwargs : PaymentKwargs) (db : List IntegrationRequest) (r : ClickApiResponse)
    (u : String)
    (hoid : truthy kwargs.order_id = true)
    (hvo : validate_order_id (pyStr kwargs.order_id) = .ok true)
    (hva : validate_payment_amount kwargs.amount = .ok true)
    (hex : PaymentIdempotency.check_existing_payment "Click" kwargs.order_id db = none)
    (hct : truthy r.click_trans_id = true)
    (hurl : pyOr r.payment_url r.redirect_url = some u)
    (hu : (u == "") = false)
    (hfresh : ∀ rec ∈ db, rec.name ≠ "IR-" ++ toString db.length) :
    ClickSettings.get_payment_url (some r) ts1 kwargs db =
      (.ok (some u), db ++ [clickCreatedRequest kwargs r ts1 db]) ∧
    (db ++ [clickCreatedRequest kwargs r ts1 db]).length = db.length + 1 ∧
    ClickSettings.get_payment_url resp2 ts2 kwargs
        (db ++ [clickCreatedRequest kwargs r ts1 db]) =
      (.ok (some u), db ++ [clickCreatedRequest kwargs r ts1 db]) := by
  have hz : (kwargs.amount == 0) = false := by
    by_contra hb
    rw [Bool.not_eq_false, beq_iff_eq] at hb
    rw [hb] at hva
    simp [validate_payment_amount] at hva
  have hctn : r.click_trans_id.isNone = false := by
    cases hcc : r.click_trans_id with
    | none => rw [hcc] at hct; simp [truthy] at hct
    | some s => rfl
  have hpu : (r.payment_url.isNone && r.redirect_url.isNone) = false := by
    cases hp : truthy r.payment_url with
    | true =>
      simp only [pyOr, hp, if_pos] at hurl
      rw [hurl]
      simp
    | false =>
      simp only [pyOr, hp, Bool.false_eq_true, if_false] at hurl
      rw [hurl]
      simp
  have hfind : db.find? (fun rec =>
      rec.service == "Click" && rec.data.order_id == kwargs.order_id &&
        (rec.status == IRStatus.Queued || rec.status == IRStatus.Completed)) = none := by
    cases hf : db.find? (fun rec =>
        rec.service == "Click" && rec.data.order_id == kwargs.order_id &&
          (rec.status == IRStatus.Queued || rec.status == IRStatus.Completed)) with
    | none => rfl
    | some x =>
      unfold PaymentIdempotency.check_existing_payment at hex
      rw [hoid] at hex
      simp only [Bool.not_true, Bool.false_eq_true, if_false, hf] at hex
      exact Option.noConfusion hex
  have hfirst : ClickSettings.get_payment_url (some r) ts1 kwargs db =
      (.ok (some u), db ++ [clickCreatedRequest kwargs r ts1 db]) := by
    unfold ClickSettings.get_payment_url
    simp only [hoid, hz, Bool.not_true, Bool.or_false, Bool.false_eq_true, if_false]
    rw [hvo, hva]
    simp only [hex, Option.map_none', Option.getD_none, truthy_none, Bool.false_eq_true,
      if_false]
    simp only [hctn, Bool.false_eq_true, if_false]
    simp only [hpu, Bool.false_eq_true, if_false]
    simp only [hct, if_true]
    rw [update_request_append_fresh db _ _ hfresh]
    simp [clickCreatedRequest, hurl]
  refine ⟨hfirst, by simp, ?_⟩
  have hex2 : PaymentIdempotency.check_existing_payment "Click" kwargs.order_id
      (db ++ [clickCreatedRequest kwargs r ts1 db]) =
      some ⟨some u, IRStatus.Queued, "IR-" ++ toString db.length⟩ := by
    unfold PaymentIdempotency.check_existing_payment
    rw [hoid]
    simp only [Bool.not_true, Bool.false_eq_true, if_false]
    rw [List.find?_append, hfind]
    simp [clickCreatedRequest, hurl]
  unfold ClickSettings.get_payment_url
  simp only [hoid, hz, Bool.not_true, Bool.or_false, Bool.false_eq_true, if_false]
  rw [hvo, hva]
  simp only [hex2, Option.map_some', Option.getD_some, truthy_some, hu, Bool.not_false,
    if_true]

/-- Witness for C3: a concrete checkout created twice for `ORDER-1` returns
the same URL both times and leaves exactly one record. -/
theorem get_payment_url_idempotent_witness :
    ClickSettings.get_payment_url (some c3_resp) "20260101120000" c3_kwargs [] =
      (UrlOutcome.ok (some "https://pay.example/1"),
        [clickCreatedRequest c3_kwargs c3_resp "20260101120000" []]) ∧
    ClickSettings.get_payment_url none "ts2" c3_kwargs
        [clickCreatedRequest c3_kwargs c3_resp "20260101120000" []] =
      (UrlOutcome.ok (some "https://pay.example/1"),
        [clickCreatedRequest c3_kwargs c3_resp "20260101120000" []]) :=
  ⟨(get_payment_url_idempotent none "20260101120000" "ts2" c3_kwargs [] c3_resp
      "https://pay.example/1" (by decide) rfl validate_payment_amount_50000 rfl
      (by decide) rfl (by decide) (by decide)).1,
    (get_payment_url_idempotent none "20260101120000" "ts2" c3_kwargs [] c3_resp
      "https://pay.example/1" (by decide) rfl validate_payment_amount_50000 rfl
      (by decide) rfl (by decide) (by decide)).2.2⟩

lemma rl_check_pos {T : Type} [LinearOrderedRing T] (now : T) (calls : List T)
    (hk : 10 ≤ (calls.filter (fun t => decide (now - t < 60))).length) :
    callback_rate_limiter_check now calls =
      (false, calls.filter (fun t => decide (now - t < 60))) := by
  simp [callback_rate_limiter_check, CallbackRateLimiter.check_rate_limit, hk]

lemma rl_check_neg {T : Type} [LinearOrderedRing T] (now : T) (calls : List T)
    (hk : ¬ 10 ≤ (calls.filter (fun t => decide (now - t < 60))).length) :
    callback_rate_limiter_check now calls =
      (true, calls.filter (fun t => decide (now - t < 60)) ++ [now]) := by
  simp [callback_rate_limiter_check, CallbackRateLimiter.check_rate_limit, hk]

lemma rl_check_reject {T : Type} [LinearOrderedRing T] (now : T) (calls : List T)
    (h : (callback_rate_limiter_check now calls).1 = false) :
    (callback_rate_limiter_check now calls).2 =
      calls.filter (fun t => decide (now - t < 60)) := by
  by_cases hk : 10 ≤ (calls.filter (fun t => decide (now - t < 60))).length
  · rw [rl_check_pos now calls hk]
  · rw [rl_check_neg now calls hk] at h
    simp at h

lemma rl_window_aux {T : Type} [LinearOrderedRing T] (ts : List T) :
    ts.Sorted (· ≤ ·) →
    ∀ (m : T) (A : List T), (∀ n ∈ ts, m ≤ n) → (∀ t ∈ A, t ≤ m) →
    (∀ b, window_count b A ≤ 10) →
    ∀ a, window_count a
      (A ++ rl_admitted ts (A.filter (fun t => decide (m - t < 60)))) ≤ 10 := by
  induction ts with
  | nil =>
    intro _ m A _ _ hbound a
    simpa [rl_admitted] using hbound a
  | cons n ts ih =>
    intro hsort m A hm hA hbound a
    have hsc := List.sorted_cons.mp hsort
    have hmn : m ≤ n := hm n (List.mem_cons_self n ts)
    have hstore : (A.filter (fun t => decide (m - t < 60))).filter
        (fun t => decide (n - t < 60)) = A.filter (fun t => decide (n - t < 60)) := by
      rw [List.filter_filter]
      refine List.filter_congr ?_
      intro t ht
      by_cases hnt : n - t < 60
      · have hmt : m - t < 60 := lt_of_le_of_lt (sub_le_sub_right hmn t) hnt
        simp [hnt, hmt]
      · simp [hnt]
    have hA' : ∀ t ∈ A, t ≤ n := fun t ht => le_trans (hA t ht) hmn
    rw [rl_admitted]
    by_cases hk : 10 ≤ ((A.filter (fun t => decide (m - t < 60))).filter
        (fun t => decide (n - t < 60))).length
    · rw [rl_check_pos n _ hk]
      simp only [Bool.false_eq_true, if_false, List.nil_append, hstore]
      exact ih hsc.2 n A hsc.1 hA' hbound a
    · rw [rl_check_neg n _ hk]
      rw [hstore] at hk
      simp only [if_true, List.singleton_append, hstore]
      have h60 : (0 : T) < 60 := by norm_num
      have hkeep : A.filter (fun t => decide (n - t < 60)) ++ [n] =
          (A ++ [n]).filter (fun t => decide (n - t < 60)) := by
        rw [List.filter_append]
        congr 1
        simp [List.filter_cons, sub_self, h60]
      have hbound' : ∀ b, window_count b (A ++ [n]) ≤ 10 := by
        intro b
        unfold window_count
        rw [List.filter_append, List.length_append]
        by_cases hw : (decide (b < n) && decide (n ≤ b + 60)) = true
        · have hwn : b < n ∧ n ≤ b + 60 := by
            simpa [Bool.and_eq_true, decide_eq_true_eq] using hw
          have h9 : (A.filter (fun t => decide (b < t) && decide (t ≤ b + 60))).length ≤
              (A.filter (fun t => decide (n - t < 60))).length := by
            apply List.Sublist.length_le
            apply List.monotone_filter_right
            intro t htw
            simp only [Bool.and_eq_true, decide_eq_true_eq] at htw ⊢
            obtain ⟨hbt, _⟩ := htw
            have h1 : b + 60 < t + 60 := add_lt_add_right hbt 60
            have h2 : n < t + 60 := lt_of_le_of_lt hwn.2 h1
            rw [sub_lt_iff_lt_add]
            rwa [add_comm]
          have hk9 : (A.filter (fun t => decide (n - t < 60))).length ≤ 9 := by omega
          have hlen1 : (([n] : List T).filter
              (fun t => decide (b < t) && decide (t ≤ b + 60))).length ≤ 1 :=
            List.length_filter_le _ _
          omega
        · have hnil : (([n] : List T).filter
              (fun t => decide (b < t) && decide (t ≤ b + 60))) = [] := by
            simp only [List.filter_cons, hw, Bool.false_eq_true, if_false, List.filter_nil]
          rw [hnil]
          simpa [window_count] using hbound b
      have hA'' : ∀ t ∈ A ++ [n], t ≤ n := by
        intro t ht
        rcases List.mem_append.mp ht with h | h
        · exact hA' t h
        · rw [List.mem_singleton.mp h]
      have := ih hsc.2 n (A ++ [n]) hsc.1 hA'' hbound' a
      rw [hkeep, List.append_cons]
      exact this

/-- C9.  The callback rate limiter admits at most 10 calls per source within
any sliding 60-second window along any chronologically ordered call sequence;
a rejected call returns `False` and is not recorded (the store keeps only the
pruned history); and when the check rejects, the Click callback endpoint
answers rate-limited immediately, independent of the payload and signature,
with no record lookup, no mutation, no hand-off and no retry. -/
theorem rate_limiter_spec :
    (∀ (T : Type) [LinearOrderedRing T] (ts : List T), ts.Sorted (· ≤ ·) →
      ∀ a, window_count a (rl_admitted ts []) ≤ 10) ∧
    (∀ (T : Type) [LinearOrderedRing T] (now : T) (calls : List T),
      (callback_rate_limiter_check now calls).1 = false →
      (callback_rate_limiter_check now calls).2 =
        calls.filter (fun t => decide (now - t < 60))) ∧
    (∀ (T : Type) [LinearOrderedRing T] (now : T) (calls : List T)
        (md5hex : String → String) (secret_key : String) (locks : List String)
        (d : ClickCallbackData) (db : List IntegrationRequest),
      (callback_rate_limiter_check now calls).1 = false →
      click_callback md5hex secret_key (callback_rate_limiter_check now calls).1 locks d db =
        ⟨ClickCbResult.rateLimited "Rate limit exceeded. Please try again later.",
          db, [], []⟩) := by
  refine ⟨?_, ?_, ?_⟩
  · intro T _ ts hsort a
    cases ts with
    | nil => simp [rl_admitted, window_count]
    | cons n ts =>
      have hsc := List.sorted_cons.mp hsort
      have hmem : ∀ k ∈ n :: ts, n ≤ k := by
        intro k hk
        rcases List.mem_cons.mp hk with h | h
        · exact le_of_eq h.symm
        · exact hsc.1 k h
      have := rl_window_aux (n :: ts) hsort n []
        hmem (by intro t ht; exact absurd ht (List.not_mem_nil t))
        (by intro b; simp [window_count]) a
      simpa using this
  · intro T _ now calls h
    exact rl_check_reject now calls h
  · intro T _ now calls md5hex secret_key locks d db h
    rw [h]
    simp [click_callback]

/-- Witness for C9: eleven simultaneous calls from one source admit at most
ten; an eleventh call against a full store is refused with the store left as
the pruned history; and the Click endpoint answers rate-limited with the
table untouched. -/
theorem rate_limiter_spec_witness :
    window_count (-30 : ℤ) (rl_admitted (List.replicate 11 (0 : ℤ)) []) ≤ 10 ∧
    (callback_rate_limiter_check (0 : ℤ) (List.replicate 10 (0 : ℤ))).2 =
      (List.replicate 10 (0 : ℤ)).filter (fun t => decide ((0 : ℤ) - t < 60)) ∧
    click_callback constDigest "sk"
        (callback_rate_limiter_check (0 : ℤ) (List.replicate 10 (0 : ℤ))).1 [] c2_payload
        [c2_record] =
      ⟨ClickCbResult.rateLimited "Rate limit exceeded. Please try again later.",
        [c2_record], [], []⟩ :=
  ⟨rate_limiter_spec.1 ℤ (List.replicate 11 (0 : ℤ)) (by decide) (-30),
    rate_limiter_spec.2.1 ℤ (0 : ℤ) (List.replicate 10 (0 : ℤ)) (by decide),
    rate_limiter_spec.2.2 ℤ (0 : ℤ) (List.replicate 10 (0 : ℤ)) constDigest "sk" []
      c2_payload [c2_record] (by decide)⟩
